import Mathlib

/-!
Shallow embedding of the waapi-client-python decoupling layer.

Worker side (src/waapi/async_decoupled_client.py): the request-dispatch loop
of WaapiClientAutobahn.onJoin, the four request handlers, and the
_WampCallbackHandler wrapper.  Python exceptions are modelled with Except;
the single-assignment future of a request is modelled by recording its
resolution as an Event in the handler's effect trace.

Thread-start side (src/waapi/wamp/ak_autobahn.py): the AutobahnClientDecoupler
and the _WampClientThread.run failure path, with Python attribute lookup made
explicit so that calling an undefined method is observable.

Facade side (src/waapi/client/client.py): WaapiClient.disconnect, call,
subscribe, unsubscribe and the private __do_request, as pure state
transformers over an explicit client state.
-/

namespace Waapi

/-- Keyword-argument / keyword-result mappings (Python dicts; values opaque,
modelled as naturals). -/
abbrev KwMap := List (String × Nat)

/-- The Python exceptions that the embedded code paths distinguish. -/
inductive Exc where
  | applicationError
  | assertionError
  | attributeError
  | otherError
deriving DecidableEq, Repr

/-- Python values that flow through completion handles in this code:
None, booleans, keyword-result mappings, and opaque subscription tokens. -/
inductive PyVal where
  | none
  | bool (b : Bool)
  | map (m : KwMap)
  | token (t : Nat)
deriving DecidableEq, Repr

/-- WampRequestType enumeration (waapi.interface), the four request kinds
handled by the dispatch loop. -/
inductive WampRequestType where
  | stop
  | call
  | subscribe
  | unsubscribe
deriving DecidableEq, Repr

/-- WampRequest value object (waapi.interface): kind, target URI, keyword
arguments, optional user callback (a callable, modelled by an identifier),
optional subscription token.  The completion future is not a field here:
its resolutions are recorded as Event.futureSet in the handler trace. -/
structure WampRequest where
  request_type : WampRequestType
  uri : String
  kwargs : KwMap
  callback : Option Nat
  subscription : Option Nat
deriving DecidableEq, Repr

/-- Observable effects of running a handler: a user callback invoked with
some keyword arguments, the request's future resolved with a value, or a
log line (logging is modelled only where the dispatch loop or the
unsubscribe handler emits it on an error path). -/
inductive Event where
  | callbackInvoked (cb : Nat) (kwargs : KwMap)
  | futureSet (v : PyVal)
  | logged
deriving DecidableEq, Repr

/-- Behavior of the underlying protocol session (autobahn), the external
collaborator: the reply of an RPC call (ok none = falsy reply object,
ok (some m) = reply whose kwresults is m, error = the call raised), the
token returned by subscribe, the outcome of unsubscribing a token, and the
outcome of session disconnect. -/
structure ProtoEnv where
  callReply : String → KwMap → Except Exc (Option KwMap)
  subscribeToken : String → KwMap → Except Exc Nat
  unsubscribeResult : Nat → Except Exc Unit
  disconnectResult : Except Exc Unit

/-- _WampCallbackHandler: stored callback field. -/
structure WampCallbackHandler where
  callback : Option Nat
deriving DecidableEq, Repr

/-- _WampCallbackHandler.__init__(self, callback=None): asserts
callable(callback).  None is not callable, so constructing the wrapper with
callback=None raises AssertionError; a function argument (modelled by an
identifier) is callable and is stored. -/
def mkWampCallbackHandler (cb : Option Nat) : Except Exc WampCallbackHandler :=
  match cb with
  | Option.none => Except.error Exc.assertionError
  | Option.some c => Except.ok ⟨Option.some c⟩

/-- _WampCallbackHandler.__call__(self, *args, **kwargs): if the stored
callback is non-None (hence callable, both guards of the source's
conjunction), invoke it with **kwargs only; all positional args are
dropped. -/
def handlerCall (h : WampCallbackHandler) (_args : List PyVal) (kwargs : KwMap) :
    List Event :=
  match h.callback with
  | Option.none => []
  | Option.some c => [Event.callbackInvoked c kwargs]

/-- WaapiClientAutobahn.stop_handler: disconnect the session, then resolve
the future with True. -/
def stop_handler (env : ProtoEnv) (_req : WampRequest) : Except Exc (List Event) :=
  match env.disconnectResult with
  | Except.error e => Except.error e
  | Except.ok _ => Except.ok [Event.futureSet (PyVal.bool true)]

/-- WaapiClientAutobahn.call_handler: perform the RPC call; result is the
reply's kwresults, or the empty mapping when the reply is falsy; build a
_WampCallbackHandler around request.callback (this asserts the callback is
callable); invoke it with the result passed POSITIONALLY; resolve the
future with the result mapping. -/
def call_handler (env : ProtoEnv) (req : WampRequest) : Except Exc (List Event) :=
  match env.callReply req.uri req.kwargs with
  | Except.error e => Except.error e
  | Except.ok res =>
    let result : KwMap := match res with
      | Option.some kw => kw
      | Option.none => []
    match mkWampCallbackHandler req.callback with
    | Except.error e => Except.error e
    | Except.ok callback =>
      Except.ok (handlerCall callback [PyVal.map result] []
        ++ [Event.futureSet (PyVal.map result)])

/-- WaapiClientAutobahn.subscribe_handler: build a _WampCallbackHandler
around request.callback, subscribe to the topic with it, and resolve the
future with the returned subscription token.  The bound wrapper is returned
alongside the trace so its event-forwarding behavior can be stated. -/
def subscribe_handler (env : ProtoEnv) (req : WampRequest) :
    Except Exc (WampCallbackHandler × List Event) :=
  match mkWampCallbackHandler req.callback with
  | Except.error e => Except.error e
  | Except.ok callback =>
    match env.subscribeToken req.uri req.kwargs with
    | Except.error e => Except.error e
    | Except.ok subscription =>
      Except.ok (callback, [Event.futureSet (PyVal.token subscription)])

/-- request.subscription.unsubscribe(): on a None subscription the attribute
access itself raises AttributeError; otherwise the protocol unsubscribe on
the token runs. -/
def attemptUnsubscribe (env : ProtoEnv) (sub : Option Nat) : Except Exc Unit :=
  match sub with
  | Option.none => Except.error Exc.attributeError
  | Option.some t => env.unsubscribeResult t

/-- WaapiClientAutobahn.unsubscribe_handler: try the protocol unsubscribe;
resolve the future with True on success, with False on ApplicationError,
and log then resolve with False on any other exception.  The handler itself
never raises. -/
def unsubscribe_handler (env : ProtoEnv) (req : WampRequest) :
    Except Exc (List Event) :=
  match attemptUnsubscribe env req.subscription with
  | Except.ok _ => Except.ok [Event.futureSet (PyVal.bool true)]
  | Except.error Exc.applicationError => Except.ok [Event.futureSet (PyVal.bool false)]
  | Except.error _ => Except.ok [Event.logged, Event.futureSet (PyVal.bool false)]

/-- The dispatch loop's dict-of-lambdas handler table, keyed by request
kind (onJoin); .get on the four-key dict.  The wrapper component of
subscribe_handler is dropped here, as in the loop. -/
def handlerFor (env : ProtoEnv) (rt : WampRequestType) :
    Option (WampRequest → Except Exc (List Event)) :=
  match rt with
  | WampRequestType.stop => Option.some (stop_handler env)
  | WampRequestType.call => Option.some (call_handler env)
  | WampRequestType.subscribe =>
      Option.some (fun r => (subscribe_handler env r).map Prod.snd)
  | WampRequestType.unsubscribe => Option.some (unsubscribe_handler env)

/-- One iteration of WaapiClientAutobahn.onJoin's dispatch loop for a
dequeued request: look up the handler; run it; if it raises any Exception,
log and resolve the request's future with None; if no handler is defined
for the kind, only log. -/
def dispatch_request (env : ProtoEnv) (req : WampRequest) : List Event :=
  match handlerFor env req.request_type with
  | Option.some h =>
    match h req with
    | Except.ok evs => evs
    | Except.error _ => [Event.logged, Event.futureSet PyVal.none]
  | Option.none => [Event.logged]

/-- Number of future resolutions recorded in a trace. -/
def countFutureSet : List Event → Nat
  | [] => 0
  | Event.futureSet _ :: rest => countFutureSet rest + 1
  | _ :: rest => countFutureSet rest

/-!
Thread-start side: src/waapi/wamp/ak_autobahn.py.
-/

/-- State of the AutobahnClientDecoupler visible to the claims: whether the
one-shot joined threading.Event has been set. -/
structure DecouplerState where
  joined : Bool
deriving DecidableEq, Repr

/-- The method names defined by class AutobahnClientDecoupler in
src/waapi/wamp/ak_autobahn.py.  Python resolves method calls by attribute
lookup in this class dict. -/
def decouplerMethodNames : List String :=
  ["wait_for_joined", "set_joined", "has_joined", "put_request", "get_request"]

/-- Python attribute lookup plus call on an AutobahnClientDecoupler:
set_joined sets the one-shot joined event; the other defined methods do not
change the state captured here; calling a name the class does not define
raises AttributeError. -/
def decouplerInvoke (s : DecouplerState) (method : String) :
    Except Exc DecouplerState :=
  if method = "set_joined" then Except.ok { joined := true }
  else if decouplerMethodNames.contains method then Except.ok s
  else Except.error Exc.attributeError

/-- _WampClientThread.run: run the application runner; if it raises, the
except branch prints the error and then calls self._decoupler.set_connected()
-- by name, resolved by Python attribute lookup.  An exception escaping run
terminates the thread with the decoupler state unchanged. -/
def wampClientThreadRun (runnerRaises : Bool) (s : DecouplerState) :
    Except Exc DecouplerState :=
  if runnerRaises then decouplerInvoke s "set_connected"
  else Except.ok s

/-!
Facade side: src/waapi/client/client.py.
-/

/-- EventHandler (waapi.client.event; the class body is outside src/).
Modelled from the spec: a Subscription Handle holding a user callback and
the underlying protocol subscription token, nullable after unsubscribe;
membership in the client's subscription set is by object identity, modelled
by a unique identifier.  The owning-client back-reference and topic are not
needed by the claims. -/
structure EventHandler where
  ehid : Nat
  subscription : PyVal
deriving DecidableEq, Repr

/-- State of a WaapiClient: whether the decoupler's joined event is set,
whether the worker thread is alive, the set of active subscription handles,
and a generation counter for the calling thread's asyncio event loop
(incremented when disconnect installs a fresh loop). -/
structure ClientState where
  joined : Bool
  threadAlive : Bool
  subscriptions : List EventHandler
  loopGen : Nat
deriving DecidableEq, Repr

/-- A request submitted to the decoupler by WaapiClient.__do_request. -/
structure SubmittedReq where
  rtype : WampRequestType
  uri : String
  kwargs : KwMap
  subscription : PyVal
deriving DecidableEq, Repr

/-- The value with which the worker loop eventually resolves the future of a
submitted request (abstract: the facade claims hold for any worker
behavior). -/
structure FacadeEnv where
  response : SubmittedReq → PyVal

/-- WaapiClient.__do_request: if the worker thread is not alive, return
(Python None) immediately, submitting nothing; otherwise build a WampRequest,
submit it to the decoupler and block on its future, whose resolved value is
returned.  The result pairs the returned value with the list of requests
submitted. -/
def do_request (env : FacadeEnv) (s : ClientState) (rt : WampRequestType)
    (uri : String) (kwargs : KwMap) (sub : PyVal) : PyVal × List SubmittedReq :=
  if s.threadAlive = false then (PyVal.none, [])
  else
    let req : SubmittedReq := { rtype := rt, uri := uri, kwargs := kwargs, subscription := sub }
    (env.response req, [req])

/-- Python truthiness of the values that reach `if success:`. -/
def truthy : PyVal → Bool
  | PyVal.none => false
  | PyVal.bool b => b
  | PyVal.map m => !m.isEmpty
  | PyVal.token _ => true

/-- WaapiClient.is_connected: the decoupler has joined AND the worker thread
is alive. -/
def is_connected (s : ClientState) : Bool :=
  s.joined && s.threadAlive

/-- WaapiClient.call: forward a CALL request; returns the future's value
(the result mapping, or None). -/
def WaapiClient.call (env : FacadeEnv) (s : ClientState)
    (uri : String) (kwargs : KwMap) : PyVal × List SubmittedReq :=
  do_request env s WampRequestType.call uri kwargs PyVal.none

/-- WaapiClient.subscribe: wrap the callback in an EventHandler (identity
ehid), forward a SUBSCRIBE request; if the returned subscription is not
None, store it on the handler, add the handler to the subscription set and
return it; otherwise return None with the state unchanged. -/
def WaapiClient.subscribe (env : FacadeEnv) (s : ClientState)
    (uri : String) (kwargs : KwMap) (ehid : Nat) :
    Option EventHandler × ClientState × List SubmittedReq :=
  let r := do_request env s WampRequestType.subscribe uri kwargs PyVal.none
  if r.1 ≠ PyVal.none then
    let eh : EventHandler := { ehid := ehid, subscription := r.1 }
    (Option.some eh, { s with subscriptions := s.subscriptions ++ [eh] }, r.2)
  else (Option.none, s, r.2)

/-- List of handles left after Python's set.remove(event_handler), which
removes the identical object (identity modelled by ehid). -/
def removeHandler (l : List EventHandler) (h : EventHandler) : List EventHandler :=
  l.filter (fun x => x.ehid ≠ h.ehid)

/-- Outcome of WaapiClient.unsubscribe: the returned value, the client state
after the call, the handler object after the call (its token may have been
cleared), and the submitted requests. -/
structure UnsubOutcome where
  retval : PyVal
  state : ClientState
  handler : EventHandler
  submitted : List SubmittedReq
deriving DecidableEq, Repr

/-- WaapiClient.unsubscribe: if the handle is not in the subscription set,
return (Python None) with no effect; otherwise forward an UNSUBSCRIBE
request with the handle's token (uri and kwargs default, the source's None
uri rendered as the empty string); if the result is truthy, remove the
handle from the set and clear its token to None; return the result either
way. -/
def WaapiClient.unsubscribe (env : FacadeEnv) (s : ClientState)
    (h : EventHandler) : UnsubOutcome :=
  if s.subscriptions.contains h = false then
    { retval := PyVal.none, state := s, handler := h, submitted := [] }
  else
    let r := do_request env s WampRequestType.unsubscribe "" [] h.subscription
    if truthy r.1 then
      { retval := r.1,
        state := { s with subscriptions := removeHandler s.subscriptions h },
        handler := { h with subscription := PyVal.none },
        submitted := r.2 }
    else
      { retval := r.1, state := s, handler := h, submitted := r.2 }

/-- Outcome of WaapiClient.disconnect. -/
structure DisconnectOutcome where
  retval : Bool
  state : ClientState
  submitted : List SubmittedReq
deriving DecidableEq, Repr

/-- WaapiClient.disconnect: return False with no effect when not connected;
otherwise submit a STOP request (uri and kwargs default, the source's None
uri rendered as the empty string), clear the subscription set locally (no
per-subscription unsubscribe), join the worker thread (it is no longer
alive afterwards), and install a fresh event loop for the calling thread
(loop generation bump); return True. -/
def WaapiClient.disconnect (env : FacadeEnv) (s : ClientState) :
    DisconnectOutcome :=
  if is_connected s = false then
    { retval := false, state := s, submitted := [] }
  else
    let r := do_request env s WampRequestType.stop "" [] PyVal.none
    { retval := true,
      state :=
        { s with
          subscriptions := []
          threadAlive := false
          loopGen := s.loopGen + 1 },
      submitted := r.2 }

/-!
Concrete inputs used to evaluate the model.
-/

/-- A protocol environment where every RPC target is valid: the reply to any
call carries the keyword-result mapping (apiVersion, 1); subscribe returns
token 42; unsubscribe and disconnect succeed. -/
def envGetInfo : ProtoEnv :=
  { callReply := fun _ _ => Except.ok (Option.some [("apiVersion", 1)])
    subscribeToken := fun _ _ => Except.ok 42
    unsubscribeResult := fun _ => Except.ok ()
    disconnectResult := Except.ok () }

/-- A CALL request with no user callback, as built by WaapiClient.call. -/
def reqGetInfoNoCb : WampRequest :=
  { request_type := WampRequestType.call
    uri := "ak.wwise.core.getInfo"
    kwargs := []
    callback := Option.none
    subscription := Option.none }

/-- A protocol environment where every protocol operation raises an
unexpected exception. -/
def envAllFail : ProtoEnv :=
  { callReply := fun _ _ => Except.error Exc.otherError
    subscribeToken := fun _ _ => Except.error Exc.otherError
    unsubscribeResult := fun _ => Except.error Exc.otherError
    disconnectResult := Except.error Exc.otherError }

/-- A protocol environment whose call replies carry the mapping (x, 1). -/
def envCallX : ProtoEnv :=
  { callReply := fun _ _ => Except.ok (Option.some [("x", 1)])
    subscribeToken := fun _ _ => Except.ok 42
    unsubscribeResult := fun _ => Except.ok ()
    disconnectResult := Except.ok () }

/-- A CALL request carrying the user callback 7. -/
def reqCallWithCb : WampRequest :=
  { request_type := WampRequestType.call
    uri := "remote.proc"
    kwargs := []
    callback := Option.some 7
    subscription := Option.none }

/-- A SUBSCRIBE request carrying the user callback 5. -/
def reqSubWithCb : WampRequest :=
  { request_type := WampRequestType.subscribe
    uri := "topic.a"
    kwargs := []
    callback := Option.some 5
    subscription := Option.none }

/-- An UNSUBSCRIBE request for subscription token 3. -/
def reqUnsub : WampRequest :=
  { request_type := WampRequestType.unsubscribe
    uri := ""
    kwargs := []
    callback := Option.none
    subscription := Option.some 3 }

/-- A facade environment whose worker resolves every future with True. -/
def envW : FacadeEnv := { response := fun _ => PyVal.bool true }

/-- A facade environment whose worker resolves every future with False. -/
def envWFalse : FacadeEnv := { response := fun _ => PyVal.bool false }

/-- A subscription handle holding token 10. -/
def ehA : EventHandler := { ehid := 1, subscription := PyVal.token 10 }

/-- A connected client owning the single subscription handle ehA. -/
def stateConnected : ClientState :=
  { joined := true, threadAlive := true, subscriptions := [ehA], loopGen := 0 }

/-- A client whose worker thread has died after joining. -/
def stateDead : ClientState :=
  { joined := true, threadAlive := false, subscriptions := [ehA], loopGen := 0 }

/-!
Helper lemmas.
-/

/-- A handle is never a member of the subscription list obtained by removing
that very handle. -/
theorem not_mem_removeHandler (l : List EventHandler) (h : EventHandler) :
    h ∉ removeHandler l h := by
  intro hmem
  rw [removeHandler, List.mem_filter] at hmem
  have h2 : h.ehid ≠ h.ehid := by simpa using hmem.2
  exact h2 rfl

/-!
Claim theorems.
-/

/-- Claim C1 (code bug witness): for a CALL request with a valid RPC target
but no user callback -- exactly what WaapiClient.call submits -- the
dispatch loop resolves the completion future with None, not with the
reply's keyword-result mapping: constructing _WampCallbackHandler around a
None callback fails its callable assertion, the loop-level catch fires, and
the future is set to None.  The claim (and the repository's own
test_no_argument) expects the mapping instead. -/
theorem call_without_callback_resolves_none :
    dispatch_request envGetInfo reqGetInfoNoCb
      = [Event.logged, Event.futureSet PyVal.none]
  ∧ Event.futureSet (PyVal.map [("apiVersion", 1)])
      ∉ dispatch_request envGetInfo reqGetInfoNoCb := by
  refine ⟨rfl, ?_⟩
  decide

/-- Claim C2 (code bug witness): when the runner raises during a connection
attempt, _WampClientThread.run's except branch calls the decoupler method
named set_connected, which AutobahnClientDecoupler does not define, so the
thread dies on an AttributeError and the one-shot joined signal is never
set -- a caller blocked in wait_for_joined is not released, contrary to the
claim and to the source's own comment about waking the caller. -/
theorem run_failure_never_sets_joined :
    wampClientThreadRun true { joined := false } = Except.error Exc.attributeError
  ∧ decouplerMethodNames.contains "set_connected" = false := by
  constructor
  · rfl
  · decide

/-- Claim C3: for every request of one of the four handled kinds, the
dispatch loop resolves the request's completion future exactly once,
whatever the protocol environment does; and whenever the selected handler
raises, the loop catches the exception, logs, and resolves the future with
None. -/
theorem dispatch_fulfills_exactly_once (env : ProtoEnv) (req : WampRequest) :
    countFutureSet (dispatch_request env req) = 1
  ∧ ∀ hd e, handlerFor env req.request_type = Option.some hd →
      hd req = Except.error e →
      dispatch_request env req = [Event.logged, Event.futureSet PyVal.none] := by
  constructor
  · obtain ⟨rt, uri, kwargs, cb, sub⟩ := req
    cases rt with
    | stop =>
      cases hd : env.disconnectResult with
      | ok u =>
        simp [dispatch_request, handlerFor, stop_handler, hd, countFutureSet]
      | error e =>
        simp [dispatch_request, handlerFor, stop_handler, hd, countFutureSet]
    | call =>
      cases hc : env.callReply uri kwargs with
      | error e =>
        simp [dispatch_request, handlerFor, call_handler, hc, countFutureSet]
      | ok res =>
        cases cb with
        | none =>
          simp [dispatch_request, handlerFor, call_handler, hc,
            mkWampCallbackHandler, countFutureSet]
        | some c =>
          cases res with
          | none =>
            simp [dispatch_request, handlerFor, call_handler, hc,
              mkWampCallbackHandler, handlerCall, countFutureSet]
          | some kw =>
            simp [dispatch_request, handlerFor, call_handler, hc,
              mkWampCallbackHandler, handlerCall, countFutureSet]
    | subscribe =>
      cases cb with
      | none =>
        simp [dispatch_request, handlerFor, subscribe_handler,
          mkWampCallbackHandler, countFutureSet]
      | some c =>
        cases ht : env.subscribeToken uri kwargs with
        | error e =>
          simp [dispatch_request, handlerFor, subscribe_handler,
            mkWampCallbackHandler, ht, countFutureSet]
        | ok tok =>
          simp [dispatch_request, handlerFor, subscribe_handler,
            mkWampCallbackHandler, ht, countFutureSet]
    | unsubscribe =>
      cases hu : attemptUnsubscribe env sub with
      | ok u =>
        simp [dispatch_request, handlerFor, unsubscribe_handler, hu, countFutureSet]
      | error e =>
        cases e <;>
          simp [dispatch_request, handlerFor, unsubscribe_handler, hu, countFutureSet]
  · intro hd e hh he
    simp [dispatch_request, hh, he]

/-- Witness for C3 at a concrete input: an environment where the protocol
call raises; the loop still resolves the future exactly once, with None. -/
theorem dispatch_fulfills_exactly_once_witness :
    countFutureSet (dispatch_request envAllFail reqGetInfoNoCb) = 1
  ∧ dispatch_request envAllFail reqGetInfoNoCb
      = [Event.logged, Event.futureSet PyVal.none] :=
  ⟨(dispatch_fulfills_exactly_once envAllFail reqGetInfoNoCb).1,
   (dispatch_fulfills_exactly_once envAllFail reqGetInfoNoCb).2
     (call_handler envAllFail) Exc.otherError rfl rfl⟩

/-- Claim C4 (counterexample): a CALL request with user callback 7 and a
reply carrying the mapping (x, 1): the worker invokes the callback with NO
keyword arguments -- call_handler passes the result mapping positionally to
_WampCallbackHandler, which forwards only keyword arguments -- so the
claimed invocation with the result mapping as keyword arguments never
happens. -/
theorem call_callback_kwargs_cex :
    dispatch_request envCallX reqCallWithCb
      = [Event.callbackInvoked 7 [], Event.futureSet (PyVal.map [("x", 1)])]
  ∧ Event.callbackInvoked 7 [("x", 1)] ∉ dispatch_request envCallX reqCallWithCb := by
  refine ⟨rfl, ?_⟩
  decide

/-- Claim C4 (amended): for every CALL request that carries a user callback
and whose protocol call replies, the worker invokes the callback
synchronously before resolving the completion future, but with no keyword
arguments: the result mapping is passed positionally to the wrapper, which
discards it. -/
theorem call_callback_invoked_before_future_empty_kwargs
    (env : ProtoEnv) (req : WampRequest) (cb : Nat) (res : Option KwMap)
    (hcb : req.callback = Option.some cb)
    (hres : env.callReply req.uri req.kwargs = Except.ok res) :
    call_handler env req
      = Except.ok [Event.callbackInvoked cb [],
                   Event.futureSet (PyVal.map (res.getD []))] := by
  cases res with
  | none => simp [call_handler, hres, hcb, mkWampCallbackHandler, handlerCall]
  | some kw => simp [call_handler, hres, hcb, mkWampCallbackHandler, handlerCall]

/-- Witness for the amended C4 at a concrete input. -/
theorem call_callback_invoked_before_future_empty_kwargs_witness :
    call_handler envCallX reqCallWithCb
      = Except.ok [Event.callbackInvoked 7 [],
                   Event.futureSet (PyVal.map [("x", 1)])] :=
  call_callback_invoked_before_future_empty_kwargs envCallX reqCallWithCb 7
    (Option.some [("x", 1)]) rfl rfl

/-- Claim C5: the UNSUBSCRIBE handler never raises; it resolves the future
exactly once, with True when the protocol unsubscribe succeeds, with False
when it raises ApplicationError, and -- after logging -- with False on any
other exception. -/
theorem unsubscribe_handler_never_raises (env : ProtoEnv) (req : WampRequest) :
    ∃ evs, unsubscribe_handler env req = Except.ok evs
      ∧ countFutureSet evs = 1
      ∧ (∀ u, attemptUnsubscribe env req.subscription = Except.ok u →
          evs = [Event.futureSet (PyVal.bool true)])
      ∧ (attemptUnsubscribe env req.subscription = Except.error Exc.applicationError →
          evs = [Event.futureSet (PyVal.bool false)])
      ∧ (∀ e, attemptUnsubscribe env req.subscription = Except.error e →
          e ≠ Exc.applicationError →
          evs = [Event.logged, Event.futureSet (PyVal.bool false)]) := by
  cases hu : attemptUnsubscribe env req.subscription with
  | ok u =>
    refine ⟨[Event.futureSet (PyVal.bool true)], ?_, rfl, fun _ _ => rfl, ?_, ?_⟩
    · simp [unsubscribe_handler, hu]
    · intro h
      exact Except.noConfusion h
    · intro e' he' _
      exact Except.noConfusion he'
  | error e =>
    by_cases he : e = Exc.applicationError
    · subst he
      refine ⟨[Event.futureSet (PyVal.bool false)], ?_, rfl, ?_, fun _ => rfl, ?_⟩
      · simp [unsubscribe_handler, hu]
      · intro u h
        exact Except.noConfusion h
      · intro e' he' hne
        injection he' with h1
        exact absurd h1.symm hne
    · refine ⟨[Event.logged, Event.futureSet (PyVal.bool false)], ?_, rfl, ?_, ?_,
        fun _ _ _ => rfl⟩
      · cases e with
        | applicationError => exact absurd rfl he
        | assertionError => simp [unsubscribe_handler, hu]
        | attributeError => simp [unsubscribe_handler, hu]
        | otherError => simp [unsubscribe_handler, hu]
      · intro u h
        exact Except.noConfusion h
      · intro h
        injection h with h1
        exact absurd h1 he

/-- Witness for C5 at a concrete input: unsubscribing token 3 in an
environment where the protocol unsubscribe succeeds resolves the future
with True. -/
theorem unsubscribe_handler_never_raises_witness :
    unsubscribe_handler envGetInfo reqUnsub
      = Except.ok [Event.futureSet (PyVal.bool true)] := by
  obtain ⟨evs, h1, _, h3, _, _⟩ := unsubscribe_handler_never_raises envGetInfo reqUnsub
  have h4 : evs = [Event.futureSet (PyVal.bool true)] := h3 () rfl
  rw [h1, h4]

/-- Claim C9: for every SUBSCRIBE request carrying a (callable) user
callback, the handler binds a wrapper around that callback and resolves the
completion future with the subscription token returned by the protocol
subscribe; on each inbound event the wrapper invokes the user callback with
exactly the event's keyword payload, discarding every positional argument
supplied by the protocol layer. -/
theorem subscribe_binds_kwargs_forwarding_wrapper
    (env : ProtoEnv) (req : WampRequest) (cb tok : Nat)
    (hcb : req.callback = Option.some cb)
    (htok : env.subscribeToken req.uri req.kwargs = Except.ok tok) :
    subscribe_handler env req
      = Except.ok (⟨Option.some cb⟩, [Event.futureSet (PyVal.token tok)])
  ∧ ∀ (args : List PyVal) (kwargs : KwMap),
      handlerCall ⟨Option.some cb⟩ args kwargs = [Event.callbackInvoked cb kwargs] := by
  refine ⟨?_, fun args kwargs => rfl⟩
  simp [subscribe_handler, hcb, mkWampCallbackHandler, htok]

/-- Witness for C9 at a concrete input: subscribing with callback 5 yields
token 42, and an inbound event with a positional argument and keyword
payload (x, 1) reaches the callback with only the keyword payload. -/
theorem subscribe_binds_kwargs_forwarding_wrapper_witness :
    subscribe_handler envCallX reqSubWithCb
      = Except.ok (⟨Option.some 5⟩, [Event.futureSet (PyVal.token 42)])
  ∧ handlerCall ⟨Option.some 5⟩ [PyVal.map [("pos", 0)]] [("x", 1)]
      = [Event.callbackInvoked 5 [("x", 1)]] :=
  ⟨(subscribe_binds_kwargs_forwarding_wrapper envCallX reqSubWithCb 5 42 rfl rfl).1,
   (subscribe_binds_kwargs_forwarding_wrapper envCallX reqSubWithCb 5 42 rfl rfl).2
     [PyVal.map [("pos", 0)]] [("x", 1)]⟩

/-- Claim C6: disconnect on a client that is not connected returns False
with no other effect; on a connected client it submits exactly one STOP
request (and no per-subscription unsubscribe), clears the subscription set,
ends with the worker thread no longer alive, installs a fresh event loop
(generation bump), and returns True; afterwards the client is no longer
connected, so a second disconnect returns False. -/
theorem disconnect_matches_spec (env : FacadeEnv) (s : ClientState) :
    (is_connected s = false →
      WaapiClient.disconnect env s
        = { retval := false, state := s, submitted := [] })
  ∧ (is_connected s = true →
      WaapiClient.disconnect env s
        = { retval := true,
            state :=
              { s with
                subscriptions := []
                threadAlive := false
                loopGen := s.loopGen + 1 },
            submitted := [{ rtype := WampRequestType.stop, uri := "",
                            kwargs := [], subscription := PyVal.none }] }
      ∧ is_connected (WaapiClient.disconnect env s).state = false
      ∧ ∀ env2, WaapiClient.disconnect env2 (WaapiClient.disconnect env s).state
          = { retval := false, state := (WaapiClient.disconnect env s).state,
              submitted := [] }) := by
  constructor
  · intro h
    simp [WaapiClient.disconnect, h]
  · intro h
    have halive : s.threadAlive = true := by
      cases hA : s.threadAlive
      · rw [is_connected, hA, Bool.and_false] at h
        exact absurd h (by simp)
      · rfl
    have h1 : WaapiClient.disconnect env s
        = { retval := true,
            state :=
              { s with
                subscriptions := []
                threadAlive := false
                loopGen := s.loopGen + 1 },
            submitted := [{ rtype := WampRequestType.stop, uri := "",
                            kwargs := [], subscription := PyVal.none }] } := by
      simp [WaapiClient.disconnect, h, do_request, halive]
    refine ⟨h1, ?_, ?_⟩
    · rw [h1]
      simp [is_connected]
    · intro env2
      rw [h1]
      simp [WaapiClient.disconnect, is_connected]

/-- Witness for C6 at a concrete input: disconnecting a connected client
with one subscription, then disconnecting again. -/
theorem disconnect_matches_spec_witness :
    WaapiClient.disconnect envW stateConnected
      = { retval := true,
          state := { joined := true, threadAlive := false,
                     subscriptions := [], loopGen := 1 },
          submitted := [{ rtype := WampRequestType.stop, uri := "",
                          kwargs := [], subscription := PyVal.none }] }
  ∧ WaapiClient.disconnect envWFalse (WaapiClient.disconnect envW stateConnected).state
      = { retval := false,
          state := (WaapiClient.disconnect envW stateConnected).state,
          submitted := [] } :=
  ⟨((disconnect_matches_spec envW stateConnected).2 rfl).1,
   ((disconnect_matches_spec envW stateConnected).2 rfl).2.2 envWFalse⟩

/-- Claim C7: on a client whose worker thread is no longer alive, call,
subscribe and unsubscribe all return the absent value immediately, submit
no request to the decoupler, and leave the client state unchanged. -/
theorem dead_thread_requests_return_absent (env : FacadeEnv) (s : ClientState)
    (uri : String) (kwargs : KwMap) (ehid : Nat) (h : EventHandler)
    (hdead : s.threadAlive = false) :
    WaapiClient.call env s uri kwargs = (PyVal.none, [])
  ∧ WaapiClient.subscribe env s uri kwargs ehid = (Option.none, s, [])
  ∧ WaapiClient.unsubscribe env s h
      = { retval := PyVal.none, state := s, handler := h, submitted := [] } := by
  have hdr : ∀ rt u kw sb, do_request env s rt u kw sb = (PyVal.none, []) := by
    intro rt u kw sb
    simp [do_request, hdead]
  refine ⟨?_, ?_, ?_⟩
  · rw [WaapiClient.call, hdr]
  · rw [WaapiClient.subscribe, hdr]
    simp
  · rw [WaapiClient.unsubscribe]
    cases hc : s.subscriptions.contains h with
    | false => simp
    | true =>
      simp [hdr, truthy]

/-- Witness for C7 at a concrete input: a joined client whose worker thread
has died. -/
theorem dead_thread_requests_return_absent_witness :
    WaapiClient.call envW stateDead "topic.a" [] = (PyVal.none, [])
  ∧ WaapiClient.subscribe envW stateDead "topic.a" [] 2 = (Option.none, stateDead, [])
  ∧ WaapiClient.unsubscribe envW stateDead ehA
      = { retval := PyVal.none, state := stateDead, handler := ehA, submitted := [] } :=
  dead_thread_requests_return_absent envW stateDead "topic.a" [] 2 ehA rfl

/-- Claim C8: facade unsubscribe on a handle outside the subscription set
returns the absent value with no effect and never raises (the model is a
total function); on a handle in the set whose UNSUBSCRIBE request resolves
truthy, the handle is removed from the set, its token is cleared to the
absent value, and the protocol's result is returned. -/
theorem unsubscribe_present_success_removes_and_clears
    (env : FacadeEnv) (s : ClientState) (h : EventHandler) :
    (s.subscriptions.contains h = false →
      WaapiClient.unsubscribe env s h
        = { retval := PyVal.none, state := s, handler := h, submitted := [] })
  ∧ (s.subscriptions.contains h = true →
      truthy (do_request env s WampRequestType.unsubscribe "" [] h.subscription).1
          = true →
      WaapiClient.unsubscribe env s h
        = { retval := (do_request env s WampRequestType.unsubscribe "" []
                        h.subscription).1,
            state := { s with subscriptions := removeHandler s.subscriptions h },
            handler := { h with subscription := PyVal.none },
            submitted := (do_request env s WampRequestType.unsubscribe "" []
                           h.subscription).2 }
      ∧ h ∉ (WaapiClient.unsubscribe env s h).state.subscriptions) := by
  constructor
  · intro hc
    have hc' : h ∉ s.subscriptions := by simpa using hc
    simp [WaapiClient.unsubscribe, hc']
  · intro hc htr
    have hc' : h ∈ s.subscriptions := by simpa using hc
    have heq : WaapiClient.unsubscribe env s h
        = { retval := (do_request env s WampRequestType.unsubscribe "" []
                        h.subscription).1,
            state := { s with subscriptions := removeHandler s.subscriptions h },
            handler := { h with subscription := PyVal.none },
            submitted := (do_request env s WampRequestType.unsubscribe "" []
                           h.subscription).2 } := by
      simp [WaapiClient.unsubscribe, hc', htr]
    refine ⟨heq, ?_⟩
    rw [heq]
    exact not_mem_removeHandler s.subscriptions h

/-- Witness for C8 at a concrete input: unsubscribing the present handle ehA
when the worker resolves the request with True. -/
theorem unsubscribe_present_success_removes_and_clears_witness :
    WaapiClient.unsubscribe envW stateConnected ehA
      = { retval := PyVal.bool true,
          state := { joined := true, threadAlive := true,
                     subscriptions := [], loopGen := 0 },
          handler := { ehid := 1, subscription := PyVal.none },
          submitted := [{ rtype := WampRequestType.unsubscribe, uri := "",
                          kwargs := [], subscription := PyVal.token 10 }] }
  ∧ ehA ∉ (WaapiClient.unsubscribe envW stateConnected ehA).state.subscriptions := by
  have hmain := (unsubscribe_present_success_removes_and_clears
    envW stateConnected ehA).2 (by decide) (by decide)
  exact ⟨hmain.1, hmain.2⟩

/-- Claim C10: when the handle is in the subscription set but the submitted
UNSUBSCRIBE request resolves to a falsy value (protocol failure, or the
absent value because the worker died), the facade leaves the subscription
set and the handle's token unchanged and returns that falsy value. -/
theorem unsubscribe_falsy_leaves_state_unchanged
    (env : FacadeEnv) (s : ClientState) (h : EventHandler)
    (hc : s.subscriptions.contains h = true)
    (hf : truthy (do_request env s WampRequestType.unsubscribe "" []
            h.subscription).1 = false) :
    WaapiClient.unsubscribe env s h
      = { retval := (do_request env s WampRequestType.unsubscribe "" []
                      h.subscription).1,
          state := s, handler := h,
          submitted := (do_request env s WampRequestType.unsubscribe "" []
                         h.subscription).2 } := by
  have hc' : h ∈ s.subscriptions := by simpa using hc
  simp [WaapiClient.unsubscribe, hc', hf]

/-- Witness for C10 at a concrete input: the worker resolves the
UNSUBSCRIBE request with False; the handle keeps its token and stays in the
set. -/
theorem unsubscribe_falsy_leaves_state_unchanged_witness :
    WaapiClient.unsubscribe envWFalse stateConnected ehA
      = { retval := PyVal.bool false, state := stateConnected, handler := ehA,
          submitted := [{ rtype := WampRequestType.unsubscribe, uri := "",
                          kwargs := [], subscription := PyVal.token 10 }] } :=
  unsubscribe_falsy_leaves_state_unchanged envWFalse stateConnected ehA
    (by decide) (by decide)

end Waapi
